import Mathlib

/-!
Shallow embedding of the authenticated API client of the Penny Stock
Picker frontend (source file: an axios instance with a request
interceptor that injects a bearer token and a response interceptor that
performs a one-shot refresh-and-retry on HTTP 401).

The credential store (`useAuthStore`, a zustand slice exposing
`accessToken`, `refreshToken`, `setTokens`, `logout`) is referenced by
the client but its implementation file is not part of the supplied
sources; its two mutators are modelled from the spec.

The client's behaviour is modelled as an executable, fuel-indexed
function `runClient` over an environment supplying the transport
outcome of each dispatched request and the outcome of the refresh
endpoint.  Besides the caller-visible result, the model records a trace
of every dispatch (paired with the store state at send time), every
refresh call, every redirect to the login page, and every credential
mutation, so that the spec's invariants can be stated over reachable
states.
-/

/-- JS truthiness of a `string | undefined | null` value: `undefined`,
`null` and the empty string are falsy, any other string is truthy. -/
def isTruthy : Option String → Bool
  | none => false
  | some s => s != ""

/-- Request headers: the `Authorization` slot, plus the remaining
headers (such as `Content-Type`), carried through untouched. -/
structure Headers where
  authorization : Option String
  rest : List (String × String)
deriving DecidableEq, Repr

/-- Point update of the `Authorization` header, mirroring the JS
assignment `config.headers.Authorization = v`. -/
def Headers.setAuthorization (h : Headers) (v : String) : Headers :=
  { h with authorization := some v }

/-- An outbound request descriptor: URL, optional headers object, and
the private retried-once marker written `_retry` in the source.  A
fresh caller request has `retry = false` (in JS the field is simply
absent, hence falsy). -/
structure RequestConfig where
  url : String
  headers : Option Headers
  retry : Bool
deriving DecidableEq, Repr

/-- The credential pair held by the client-side store. -/
structure AuthState where
  accessToken : Option String
  refreshToken : Option String
deriving DecidableEq, Repr

/-- Modelled from the spec: the store's `setTokens` mutator (the
`authSlice` store file is not among the supplied sources).  A store
update assigns the full credential pair as one indivisible operation:
both fields are replaced together in a single assignment. -/
def AuthState.setTokens (a r : String) : AuthState :=
  ⟨some a, some r⟩

/-- Modelled from the spec: the store's `logout` mutator (the
`authSlice` store file is not among the supplied sources).  Logout
clears the credential pair, again as one indivisible operation. -/
def AuthState.logout : AuthState :=
  ⟨none, none⟩

/-- Base URL of the backend (the `VITE_API_URL` fallback). -/
def API_URL : String := "/api/v1"

/-- The request interceptor (pre-send hook): read the current access
token from the store; if it is truthy and the config has a headers
object, set the `Authorization` header to `Bearer <token>`; otherwise
leave the config untouched. -/
def requestInterceptor (st : AuthState) (config : RequestConfig) : RequestConfig :=
  match st.accessToken, config.headers with
  | some tok, some h =>
      if tok != "" then
        { config with headers := some (h.setAuthorization ("Bearer " ++ tok)) }
      else config
  | _, _ => config

/-- An HTTP response as delivered to the success branch of the response
interceptor. -/
structure HttpResponse where
  status : Nat
  body : String
deriving DecidableEq, Repr

/-- Transport-level outcome of one dispatched request: a delivered
response, or an axios error carrying `error.response?.status` (`none`
models a network/transport error with no HTTP response at all). -/
inductive RawOutcome where
  | ok (resp : HttpResponse)
  | err (status? : Option Nat)
deriving DecidableEq, Repr

/-- The axios error object as seen by the response interceptor and by
the caller: the optional HTTP status of `error.response`, and
`error.config`, the (possibly mutated) originating request. -/
structure AxiosErr where
  status? : Option Nat
  config : RequestConfig
deriving DecidableEq, Repr

/-- Outcome of the bare `axios.post` to the refresh endpoint: success
carries the `access_token` and `refresh_token` fields of the response
body; failure carries the status of the failed call (the source's
`catch` ignores it, catching every error identically). -/
inductive RefreshOutcome where
  | success (access refresh : String)
  | failure (status? : Option Nat)
deriving DecidableEq, Repr

/-- Environment: the transport outcome of the k-th request dispatched
through the intercepted client, and the outcome of the refresh call. -/
structure Env where
  outcome : Nat → RawOutcome
  refresh : RefreshOutcome

/-- Caller-visible result of one originating call: a resolved response
or a rejected error. -/
inductive CallResult where
  | resolved (resp : HttpResponse)
  | rejected (e : AxiosErr)
deriving DecidableEq, Repr

/-- The config of the refresh call itself: a bare `axios.post` to
`API_URL ++ "/auth/refresh"` carrying the refresh token as a query
parameter — built fresh, with no `Authorization` header, and not passed
through either interceptor of the apiClient. -/
def refreshCallConfig (rt : String) : RequestConfig :=
  { url := API_URL ++ "/auth/refresh?refresh_token=" ++ rt
    headers := some ⟨none, [("Content-Type", "application/json")]⟩
    retry := false }

/-- Run-state threaded through one originating call: the credential
store, the trace of dispatched requests (each paired with the store
state at its send time), the refresh calls issued, the number of
redirects to the login page, and the history of store states (initial
state followed by each mutation's result). -/
structure RunState where
  auth : AuthState
  dispatched : List (AuthState × RequestConfig)
  refreshRequests : List RequestConfig
  redirects : Nat
  authHistory : List AuthState
deriving DecidableEq, Repr

/-- Run-state at the start of an originating call, with credential
store `st` and empty traces. -/
def initRun (st : AuthState) : RunState :=
  { auth := st
    dispatched := []
    refreshRequests := []
    redirects := 0
    authHistory := [st] }

/-- One originating call through the apiClient, combining the request
interceptor, the transport, and the response interceptor of the source:

* apply the request interceptor to the config and dispatch it;
* on a delivered response, resolve with it unchanged;
* on an error with `status === 401` whose config is not yet marked
  `_retry`: mark it, read the refresh token from the store;
  - if truthy: call the refresh endpoint with it (bare axios);
    on success store both returned tokens with one `setTokens`, write
    `Authorization: Bearer <new access>` onto the marked config and
    reissue it through the apiClient (the recursive call re-runs both
    interceptors); on failure `logout`, redirect to `/login`, and fall
    through to reject the original error;
  - if absent: `logout`, redirect to `/login`, and fall through to
    reject the original error;
* on any other error (non-401 status, no status, or already marked):
  reject the error unchanged.

The recursion through the reissued request is fuel-indexed; `none`
means the fuel ran out (fuel 2 always suffices, as proved below). -/
def runClient : Nat → Env → RunState → RequestConfig → Option (CallResult × RunState)
  | 0, _, _, _ => none
  | fuel + 1, env, rs, cfg =>
    let sent := requestInterceptor rs.auth cfg
    let k := rs.dispatched.length
    let rs1 := { rs with dispatched := rs.dispatched ++ [(rs.auth, sent)] }
    match env.outcome k with
    | RawOutcome.ok resp => some (CallResult.resolved resp, rs1)
    | RawOutcome.err status? =>
      if status? = some 401 ∧ sent.retry = false then
        let marked := { sent with retry := true }
        if isTruthy rs1.auth.refreshToken then
          let rt := rs1.auth.refreshToken.getD ""
          let rs2 := { rs1 with refreshRequests := rs1.refreshRequests ++ [refreshCallConfig rt] }
          match env.refresh with
          | RefreshOutcome.success a r =>
            let auth2 := AuthState.setTokens a r
            let rs3 := { rs2 with auth := auth2, authHistory := rs2.authHistory ++ [auth2] }
            let retried :=
              match marked.headers with
              | some h => { marked with headers := some (h.setAuthorization ("Bearer " ++ a)) }
              | none => marked
            runClient fuel env rs3 retried
          | RefreshOutcome.failure _ =>
            let auth2 := AuthState.logout
            let rs3 := { rs2 with
              auth := auth2
              authHistory := rs2.authHistory ++ [auth2]
              redirects := rs2.redirects + 1 }
            some (CallResult.rejected ⟨status?, marked⟩, rs3)
        else
          let auth2 := AuthState.logout
          let rs2 := { rs1 with
            auth := auth2
            authHistory := rs1.authHistory ++ [auth2]
            redirects := rs1.redirects + 1 }
          some (CallResult.rejected ⟨status?, marked⟩, rs2)
      else
        some (CallResult.rejected ⟨status?, sent⟩, rs1)

/-- Current bearer value derived from the store's access token. -/
def bearerOfStore (st : AuthState) : Option String :=
  st.accessToken.map (fun t => "Bearer " ++ t)

/-- A dispatched entry (store state at send time, config as sent) is
sound when: if the store's access token was truthy at send time and the
config has a headers object, then its `Authorization` header equals
`Bearer <the store's access token at send time>`. -/
def sentWithCurrentToken (e : AuthState × RequestConfig) : Bool :=
  !(isTruthy e.1.accessToken) ||
    (match e.2.headers with
     | none => true
     | some h => h.authorization == bearerOfStore e.1)

/-- The config reissued after a successful refresh: the sent config
marked `_retry`, with `Authorization: Bearer <new access token>`
written onto its headers object when it has one (mirroring the manual
assignment before `apiClient(originalRequest)` in the source). -/
def retriedWithBearer (sent : RequestConfig) (a : String) : RequestConfig :=
  match sent.headers with
  | some h => { sent with retry := true, headers := some (h.setAuthorization ("Bearer " ++ a)) }
  | none => { sent with retry := true }

/-- Concrete credential store used by the witness scenarios. -/
def demoStore : AuthState := ⟨some "tokA0", some "tokR0"⟩

/-- Concrete store with no refresh token, for the no-refresh scenarios. -/
def demoStoreNoRefresh : AuthState := ⟨some "tokA0", none⟩

/-- Concrete store with no access token at all. -/
def demoStoreEmpty : AuthState := ⟨none, none⟩

/-- Concrete originating request used by the witness scenarios. -/
def demoCfg : RequestConfig :=
  { url := "/stocks"
    headers := some ⟨none, [("Content-Type", "application/json")]⟩
    retry := false }

/-- Environment: first dispatch gets 401, refresh succeeds, retry gets
200. -/
def demoEnvOk : Env :=
  { outcome := fun k => if k = 0 then RawOutcome.err (some 401) else RawOutcome.ok ⟨200, "stocks"⟩
    refresh := RefreshOutcome.success "tokA1" "tokR1" }

/-- Environment: every dispatch gets 401 and the refresh call itself
fails with 401. -/
def demoEnvFail : Env :=
  { outcome := fun _ => RawOutcome.err (some 401)
    refresh := RefreshOutcome.failure (some 401) }

/-- Environment: every dispatch gets 500; the refresh endpoint would
succeed but must never be consulted. -/
def demoEnv500 : Env :=
  { outcome := fun _ => RawOutcome.err (some 500)
    refresh := RefreshOutcome.success "tokA1" "tokR1" }

/-- Environment: every dispatch gets 401 and the refresh endpoint keeps
succeeding — the loop-prevention scenario. -/
def demoEnv401 : Env :=
  { outcome := fun _ => RawOutcome.err (some 401)
    refresh := RefreshOutcome.success "tokA1" "tokR1" }

/-- Environment: a network/transport error with no HTTP response. -/
def demoEnvNet : Env :=
  { outcome := fun _ => RawOutcome.err none
    refresh := RefreshOutcome.success "tokA1" "tokR1" }

/-- Final run state of the successful demo scenario (401, refresh
success, 200 retry), as computed by the model; used by witnesses. -/
def demoRunOkFinal : RunState :=
  { auth := ⟨some "tokA1", some "tokR1"⟩
    dispatched := [(⟨some "tokA0", some "tokR0"⟩,
                    { url := "/stocks"
                      headers := some ⟨some "Bearer tokA0", [("Content-Type", "application/json")]⟩
                      retry := false }),
                   (⟨some "tokA1", some "tokR1"⟩,
                    { url := "/stocks"
                      headers := some ⟨some "Bearer tokA1", [("Content-Type", "application/json")]⟩
                      retry := true })]
    refreshRequests := [{ url := "/api/v1/auth/refresh?refresh_token=tokR0"
                          headers := some ⟨none, [("Content-Type", "application/json")]⟩
                          retry := false }]
    redirects := 0
    authHistory := [⟨some "tokA0", some "tokR0"⟩, ⟨some "tokA1", some "tokR1"⟩] }

/-- Final run state of the failing demo scenario (401, refresh call
itself fails with 401), as computed by the model; used by witnesses. -/
def demoRunFailFinal : RunState :=
  { auth := ⟨none, none⟩
    dispatched := [(⟨some "tokA0", some "tokR0"⟩,
                    { url := "/stocks"
                      headers := some ⟨some "Bearer tokA0", [("Content-Type", "application/json")]⟩
                      retry := false })]
    refreshRequests := [{ url := "/api/v1/auth/refresh?refresh_token=tokR0"
                          headers := some ⟨none, [("Content-Type", "application/json")]⟩
                          retry := false }]
    redirects := 1
    authHistory := [⟨some "tokA0", some "tokR0"⟩, ⟨none, none⟩] }

theorem requestInterceptor_retry (st : AuthState) (c : RequestConfig) :
    (requestInterceptor st c).retry = c.retry := by
  unfold requestInterceptor
  rcases st.accessToken with _ | tok <;> rcases hh : c.headers with _ | h <;> simp
  split <;> rfl

theorem sentWithCurrentToken_interceptor (st : AuthState) (c : RequestConfig) :
    sentWithCurrentToken (st, requestInterceptor st c) = true := by
  unfold sentWithCurrentToken requestInterceptor isTruthy bearerOfStore Headers.setAuthorization
  rcases ha : st.accessToken with _ | tok
  · simp [ha]
  · rcases hh : c.headers with _ | h
    · simp [ha, hh]
    · by_cases htok : tok = ""
      · simp [ha, hh, htok]
      · simp [ha, hh, htok]

theorem runClient_step_ok (fuel : Nat) (env : Env) (rs : RunState) (cfg : RequestConfig)
    (resp : HttpResponse)
    (h : env.outcome rs.dispatched.length = RawOutcome.ok resp) :
    runClient (fuel + 1) env rs cfg =
      some (CallResult.resolved resp,
            { rs with dispatched := rs.dispatched ++ [(rs.auth, requestInterceptor rs.auth cfg)] }) := by
  simp only [runClient, h]

theorem runClient_step_reject (fuel : Nat) (env : Env) (rs : RunState) (cfg : RequestConfig)
    (s? : Option Nat)
    (h : env.outcome rs.dispatched.length = RawOutcome.err s?)
    (hcond : ¬ (s? = some 401 ∧ (requestInterceptor rs.auth cfg).retry = false)) :
    runClient (fuel + 1) env rs cfg =
      some (CallResult.rejected ⟨s?, requestInterceptor rs.auth cfg⟩,
            { rs with dispatched := rs.dispatched ++ [(rs.auth, requestInterceptor rs.auth cfg)] }) := by
  simp only [runClient, h]
  rw [if_neg hcond]

theorem runClient_marked_eq (fuel : Nat) (env : Env) (rs : RunState) (cfg : RequestConfig)
    (h : cfg.retry = true) :
    runClient (fuel + 1) env rs cfg =
      some ((match env.outcome rs.dispatched.length with
             | RawOutcome.ok resp => CallResult.resolved resp
             | RawOutcome.err s? => CallResult.rejected ⟨s?, requestInterceptor rs.auth cfg⟩),
            { rs with dispatched := rs.dispatched ++ [(rs.auth, requestInterceptor rs.auth cfg)] }) := by
  have hs : (requestInterceptor rs.auth cfg).retry = true := by
    rw [requestInterceptor_retry]; exact h
  rcases ho : env.outcome rs.dispatched.length with resp | s?
  · rw [runClient_step_ok fuel env rs cfg resp ho]
  · rw [runClient_step_reject fuel env rs cfg s? ho (by simp [hs])]

theorem retriedWithBearer_retry (sent : RequestConfig) (a : String) :
    (retriedWithBearer sent a).retry = true := by
  unfold retriedWithBearer
  rcases hh : sent.headers with _ | h <;> rfl

theorem runClient_step_refresh_success (fuel : Nat) (env : Env) (rs : RunState)
    (cfg : RequestConfig) (a r : String)
    (h : env.outcome rs.dispatched.length = RawOutcome.err (some 401))
    (hretry : cfg.retry = false)
    (ht : isTruthy rs.auth.refreshToken = true)
    (hr : env.refresh = RefreshOutcome.success a r) :
    runClient (fuel + 1) env rs cfg =
      runClient fuel env
        { rs with
          auth := AuthState.setTokens a r
          dispatched := rs.dispatched ++ [(rs.auth, requestInterceptor rs.auth cfg)]
          refreshRequests := rs.refreshRequests ++ [refreshCallConfig (rs.auth.refreshToken.getD "")]
          authHistory := rs.authHistory ++ [AuthState.setTokens a r] }
        (retriedWithBearer (requestInterceptor rs.auth cfg) a) := by
  have hs : (requestInterceptor rs.auth cfg).retry = false := by
    rw [requestInterceptor_retry]; exact hretry
  simp only [runClient, h, hr]
  rw [if_pos ⟨trivial, hs⟩]
  simp only [ht, if_pos]
  unfold retriedWithBearer
  rcases hh : (requestInterceptor rs.auth cfg).headers with _ | hd <;> simp [hh]

theorem runClient_step_refresh_failure (fuel : Nat) (env : Env) (rs : RunState)
    (cfg : RequestConfig) (fs? : Option Nat)
    (h : env.outcome rs.dispatched.length = RawOutcome.err (some 401))
    (hretry : cfg.retry = false)
    (ht : isTruthy rs.auth.refreshToken = true)
    (hr : env.refresh = RefreshOutcome.failure fs?) :
    runClient (fuel + 1) env rs cfg =
      some (CallResult.rejected ⟨some 401, { requestInterceptor rs.auth cfg with retry := true }⟩,
            { rs with
              auth := AuthState.logout
              dispatched := rs.dispatched ++ [(rs.auth, requestInterceptor rs.auth cfg)]
              refreshRequests := rs.refreshRequests ++ [refreshCallConfig (rs.auth.refreshToken.getD "")]
              redirects := rs.redirects + 1
              authHistory := rs.authHistory ++ [AuthState.logout] }) := by
  have hs : (requestInterceptor rs.auth cfg).retry = false := by
    rw [requestInterceptor_retry]; exact hretry
  simp only [runClient, h, hr]
  rw [if_pos ⟨trivial, hs⟩]
  simp only [ht, if_pos]

theorem runClient_step_no_refresh_token (fuel : Nat) (env : Env) (rs : RunState)
    (cfg : RequestConfig)
    (h : env.outcome rs.dispatched.length = RawOutcome.err (some 401))
    (hretry : cfg.retry = false)
    (ht : isTruthy rs.auth.refreshToken = false) :
    runClient (fuel + 1) env rs cfg =
      some (CallResult.rejected ⟨some 401, { requestInterceptor rs.auth cfg with retry := true }⟩,
            { rs with
              auth := AuthState.logout
              dispatched := rs.dispatched ++ [(rs.auth, requestInterceptor rs.auth cfg)]
              redirects := rs.redirects + 1
              authHistory := rs.authHistory ++ [AuthState.logout] }) := by
  have hs : (requestInterceptor rs.auth cfg).retry = false := by
    rw [requestInterceptor_retry]; exact hretry
  simp only [runClient, h]
  rw [if_pos ⟨trivial, hs⟩]
  simp only [ht]
  rfl

theorem runClient_fuel_succ (fuel : Nat) (env : Env) (rs : RunState) (cfg : RequestConfig) :
    runClient (fuel + 1 + 1) env rs cfg = runClient (1 + 1) env rs cfg := by
  rcases ho : env.outcome rs.dispatched.length with resp | s?
  · rw [runClient_step_ok (fuel + 1) env rs cfg resp ho,
        runClient_step_ok 1 env rs cfg resp ho]
  · by_cases hcond : s? = some 401 ∧ (requestInterceptor rs.auth cfg).retry = false
    · obtain ⟨hs, hfresh⟩ := hcond
      subst hs
      have hretry : cfg.retry = false := by
        rw [← requestInterceptor_retry rs.auth cfg]; exact hfresh
      by_cases ht : isTruthy rs.auth.refreshToken = true
      · rcases hr : env.refresh with ⟨a, r⟩ | fs?
        · rw [runClient_step_refresh_success (fuel + 1) env rs cfg a r ho hretry ht hr,
              runClient_step_refresh_success 1 env rs cfg a r ho hretry ht hr,
              runClient_marked_eq fuel env _ _ (retriedWithBearer_retry _ a),
              runClient_marked_eq 0 env _ _ (retriedWithBearer_retry _ a)]
        · rw [runClient_step_refresh_failure (fuel + 1) env rs cfg fs? ho hretry ht hr,
              runClient_step_refresh_failure 1 env rs cfg fs? ho hretry ht hr]
      · rw [Bool.not_eq_true] at ht
        rw [runClient_step_no_refresh_token (fuel + 1) env rs cfg ho hretry ht,
            runClient_step_no_refresh_token 1 env rs cfg ho hretry ht]
    · rw [runClient_step_reject (fuel + 1) env rs cfg s? ho hcond,
          runClient_step_reject 1 env rs cfg s? ho hcond]

theorem runClient_fuel_ge_two (fuel : Nat) (env : Env) (rs : RunState) (cfg : RequestConfig) :
    runClient (fuel + 2) env rs cfg = runClient 2 env rs cfg :=
  runClient_fuel_succ fuel env rs cfg

theorem runClient_two_isSome (env : Env) (rs : RunState) (cfg : RequestConfig) :
    (runClient 2 env rs cfg).isSome = true := by
  show (runClient (1 + 1) env rs cfg).isSome = true
  rcases ho : env.outcome rs.dispatched.length with resp | s?
  · rw [runClient_step_ok 1 env rs cfg resp ho]; rfl
  · by_cases hcond : s? = some 401 ∧ (requestInterceptor rs.auth cfg).retry = false
    · obtain ⟨hs, hfresh⟩ := hcond
      subst hs
      have hretry : cfg.retry = false := by
        rw [← requestInterceptor_retry rs.auth cfg]; exact hfresh
      by_cases ht : isTruthy rs.auth.refreshToken = true
      · rcases hr : env.refresh with ⟨a, r⟩ | fs?
        · rw [runClient_step_refresh_success 1 env rs cfg a r ho hretry ht hr,
              runClient_marked_eq 0 env _ _ (retriedWithBearer_retry _ a)]
          rfl
        · rw [runClient_step_refresh_failure 1 env rs cfg fs? ho hretry ht hr]; rfl
      · rw [Bool.not_eq_true] at ht
        rw [runClient_step_no_refresh_token 1 env rs cfg ho hretry ht]; rfl
    · rw [runClient_step_reject 1 env rs cfg s? ho hcond]; rfl

theorem runClient_trace (fuel : Nat) (env : Env) (rs : RunState) (cfg : RequestConfig)
    (res : CallResult) (rs' : RunState)
    (hrun : runClient fuel env rs cfg = some (res, rs')) :
    (rs.dispatched.all sentWithCurrentToken = true →
       rs'.dispatched.all sentWithCurrentToken = true) ∧
    (∃ tailH, rs'.authHistory = rs.authHistory ++ tailH ∧
       ∀ s ∈ tailH,
         (∃ a r, env.refresh = RefreshOutcome.success a r ∧ s = AuthState.setTokens a r) ∨
         s = AuthState.logout) ∧
    (∃ tailR, rs'.refreshRequests = rs.refreshRequests ++ tailR ∧ tailR.length ≤ 1 ∧
       ∀ c ∈ tailR, ∃ rt, c = refreshCallConfig rt) := by
  rcases fuel with _ | n
  · simp [runClient] at hrun
  rcases ho : env.outcome rs.dispatched.length with resp | s?
  · rw [runClient_step_ok n env rs cfg resp ho] at hrun
    simp only [Option.some.injEq, Prod.mk.injEq] at hrun
    obtain ⟨-, hrs⟩ := hrun
    subst hrs
    refine ⟨?_, ⟨[], by simp⟩, ⟨[], by simp⟩⟩
    intro hpre
    simp [List.all_append, hpre, sentWithCurrentToken_interceptor]
  · by_cases hcond : s? = some 401 ∧ (requestInterceptor rs.auth cfg).retry = false
    · obtain ⟨hs, hfresh⟩ := hcond
      subst hs
      have hretry : cfg.retry = false := by
        rw [← requestInterceptor_retry rs.auth cfg]; exact hfresh
      by_cases ht : isTruthy rs.auth.refreshToken = true
      · rcases hr : env.refresh with ⟨a, r⟩ | fs?
        · rw [runClient_step_refresh_success n env rs cfg a r ho hretry ht hr] at hrun
          rcases n with _ | m
          · simp [runClient] at hrun
          rw [runClient_marked_eq m env _ _ (retriedWithBearer_retry _ a)] at hrun
          simp only [Option.some.injEq, Prod.mk.injEq] at hrun
          obtain ⟨-, hrs⟩ := hrun
          subst hrs
          refine ⟨?_, ⟨[AuthState.setTokens a r], by simp, ?_⟩,
                  ⟨[refreshCallConfig (rs.auth.refreshToken.getD "")], by simp, by simp, ?_⟩⟩
          · intro hpre
            simp [List.all_append, hpre, sentWithCurrentToken_interceptor]
          · intro s hsmem
            simp only [List.mem_singleton] at hsmem
            exact Or.inl ⟨a, r, rfl, hsmem⟩
          · intro c hcmem
            simp only [List.mem_singleton] at hcmem
            exact ⟨rs.auth.refreshToken.getD "", hcmem⟩
        · rw [runClient_step_refresh_failure n env rs cfg fs? ho hretry ht hr] at hrun
          simp only [Option.some.injEq, Prod.mk.injEq] at hrun
          obtain ⟨-, hrs⟩ := hrun
          subst hrs
          refine ⟨?_, ⟨[AuthState.logout], by simp, by simp⟩,
                  ⟨[refreshCallConfig (rs.auth.refreshToken.getD "")], by simp, by simp, ?_⟩⟩
          · intro hpre
            simp [List.all_append, hpre, sentWithCurrentToken_interceptor]
          · intro c hcmem
            simp only [List.mem_singleton] at hcmem
            exact ⟨rs.auth.refreshToken.getD "", hcmem⟩
      · rw [Bool.not_eq_true] at ht
        rw [runClient_step_no_refresh_token n env rs cfg ho hretry ht] at hrun
        simp only [Option.some.injEq, Prod.mk.injEq] at hrun
        obtain ⟨-, hrs⟩ := hrun
        subst hrs
        refine ⟨?_, ⟨[AuthState.logout], by simp, by simp⟩, ⟨[], by simp⟩⟩
        intro hpre
        simp [List.all_append, hpre, sentWithCurrentToken_interceptor]
    · rw [runClient_step_reject n env rs cfg s? ho hcond] at hrun
      simp only [Option.some.injEq, Prod.mk.injEq] at hrun
      obtain ⟨-, hrs⟩ := hrun
      subst hrs
      refine ⟨?_, ⟨[], by simp⟩, ⟨[], by simp⟩⟩
      intro hpre
      simp [List.all_append, hpre, sentWithCurrentToken_interceptor]

/-- C1: for an originating request that receives 401, has not been
retried, and finds a truthy refresh token in the store, with a
successful refresh call: exactly one refresh call is issued, the
returned access and refresh tokens are stored, the original request is
reissued exactly once (two dispatches in total), and the caller
receives the retried request's outcome — a resolved response on
success, or the retry's own error on failure — never the original
401. -/
theorem claim1_refresh_retry_delivers_retry_outcome (st : AuthState) (cfg : RequestConfig)
    (env : Env) (a r : String)
    (h1 : cfg.retry = false)
    (h2 : env.outcome 0 = RawOutcome.err (some 401))
    (h3 : isTruthy st.refreshToken = true)
    (h4 : env.refresh = RefreshOutcome.success a r) :
    ∃ res rs',
      runClient 2 env (initRun st) cfg = some (res, rs') ∧
      rs'.refreshRequests.length = 1 ∧
      rs'.dispatched.length = 2 ∧
      rs'.auth = AuthState.setTokens a r ∧
      (∀ resp, env.outcome 1 = RawOutcome.ok resp → res = CallResult.resolved resp) ∧
      (∀ s? : Option Nat, env.outcome 1 = RawOutcome.err s? →
        ∃ c, c.retry = true ∧ res = CallResult.rejected ⟨s?, c⟩) := by
  have h2' : env.outcome (initRun st).dispatched.length = RawOutcome.err (some 401) := by
    simpa [initRun] using h2
  have h3' : isTruthy (initRun st).auth.refreshToken = true := by
    simpa [initRun] using h3
  show ∃ res rs', runClient (1 + 1) env (initRun st) cfg = some (res, rs') ∧ _
  rw [runClient_step_refresh_success 1 env (initRun st) cfg a r h2' h1 h3' h4,
      runClient_marked_eq 0 env _ _ (retriedWithBearer_retry _ a)]
  refine ⟨_, _, rfl, by simp [initRun], by simp [initRun], by simp [initRun], ?_, ?_⟩
  · intro resp hresp
    simp [initRun, hresp]
  · intro s? hs
    refine ⟨requestInterceptor (AuthState.setTokens a r)
              (retriedWithBearer (requestInterceptor (initRun st).auth cfg) a), ?_, ?_⟩
    · rw [requestInterceptor_retry]
      exact retriedWithBearer_retry _ a
    · simp [initRun, hs]

/-- Witness for C1: store holds tokA0/tokR0, first dispatch gets 401,
refresh succeeds with tokA1/tokR1, the retry gets 200 and the caller
receives it. -/
theorem claim1_witness :
    demoCfg.retry = false ∧
    demoEnvOk.outcome 0 = RawOutcome.err (some 401) ∧
    isTruthy demoStore.refreshToken = true ∧
    demoEnvOk.refresh = RefreshOutcome.success "tokA1" "tokR1" ∧
    (∃ res rs',
      runClient 2 demoEnvOk (initRun demoStore) demoCfg = some (res, rs') ∧
      rs'.refreshRequests.length = 1 ∧
      rs'.dispatched.length = 2 ∧
      rs'.auth = AuthState.setTokens "tokA1" "tokR1" ∧
      (∀ resp, demoEnvOk.outcome 1 = RawOutcome.ok resp → res = CallResult.resolved resp) ∧
      (∀ s? : Option Nat, demoEnvOk.outcome 1 = RawOutcome.err s? →
        ∃ c, c.retry = true ∧ res = CallResult.rejected ⟨s?, c⟩)) :=
  ⟨rfl, by decide, by decide, rfl,
   claim1_refresh_retry_delivers_retry_outcome demoStore demoCfg demoEnvOk "tokA1" "tokR1"
     rfl (by decide) (by decide) rfl⟩

/-- C2: a request already marked as retried that receives a 401 causes
no second refresh — the store of refresh calls is untouched, the run
state is otherwise unchanged except for recording the dispatch — and
that 401 is propagated to the caller; this holds at every fuel, so the
refresh/retry process never loops. -/
theorem claim2_retried_marker_prevents_second_refresh (fuel : Nat) (env : Env) (rs : RunState)
    (cfg : RequestConfig)
    (hretry : cfg.retry = true)
    (h401 : env.outcome rs.dispatched.length = RawOutcome.err (some 401)) :
    runClient (fuel + 1) env rs cfg =
      some (CallResult.rejected ⟨some 401, requestInterceptor rs.auth cfg⟩,
            { rs with dispatched := rs.dispatched ++ [(rs.auth, requestInterceptor rs.auth cfg)] }) := by
  refine runClient_step_reject fuel env rs cfg (some 401) h401 ?_
  rintro ⟨-, hf⟩
  rw [requestInterceptor_retry, hretry] at hf
  exact Bool.noConfusion hf

/-- Witness for C2: the marked retry of the demo request receives a
second 401; the 401 is rejected to the caller and no refresh call is
recorded. -/
theorem claim2_witness :
    ({ demoCfg with retry := true } : RequestConfig).retry = true ∧
    demoEnv401.outcome (initRun demoStore).dispatched.length = RawOutcome.err (some 401) ∧
    runClient 2 demoEnv401 (initRun demoStore) { demoCfg with retry := true } =
      some (CallResult.rejected
              ⟨some 401, requestInterceptor (initRun demoStore).auth { demoCfg with retry := true }⟩,
            { initRun demoStore with
              dispatched := (initRun demoStore).dispatched ++
                [((initRun demoStore).auth,
                  requestInterceptor (initRun demoStore).auth { demoCfg with retry := true })] }) :=
  ⟨rfl, by decide,
   claim2_retried_marker_prevents_second_refresh 1 demoEnv401 (initRun demoStore)
     { demoCfg with retry := true } rfl (by decide)⟩

/-- C3: in any run of an originating call, every dispatched request
(the original and the post-refresh retry alike, the refresh call not
being among the dispatches) whose send-time store held a truthy access
token and which carries a headers object has its `Authorization` header
equal to `Bearer <access token current at send time>`. -/
theorem claim3_bearer_matches_store_at_send (fuel : Nat) (env : Env) (st : AuthState)
    (cfg : RequestConfig) (res : CallResult) (rs' : RunState)
    (hrun : runClient fuel env (initRun st) cfg = some (res, rs')) :
    rs'.dispatched.all sentWithCurrentToken = true := by
  exact (runClient_trace fuel env (initRun st) cfg res rs' hrun).1 (by simp [initRun])

/-- Witness for C3: in the concrete successful scenario, both dispatched
requests (original and retry) carry `Authorization: Bearer <token>`
matching the store's access token current at their respective send
times (`tokA0` then `tokA1`). -/
theorem claim3_witness :
    runClient 2 demoEnvOk (initRun demoStore) demoCfg =
      some (CallResult.resolved ⟨200, "stocks"⟩, demoRunOkFinal) ∧
    demoRunOkFinal.dispatched.all sentWithCurrentToken = true :=
  ⟨by decide,
   claim3_bearer_matches_store_at_send 2 demoEnvOk demoStore demoCfg
     (CallResult.resolved ⟨200, "stocks"⟩) demoRunOkFinal (by decide)⟩

/-- C4: for an originating request that receives a 401 with a truthy
refresh token in the store, when the refresh call itself fails (with
any status): the credential pair is cleared, exactly one redirect to
the login page occurs, and the caller's promise is rejected with the
original request's 401 — not the refresh call's own error. -/
theorem claim4_refresh_failure_clears_and_rejects_original (fuel : Nat) (env : Env)
    (st : AuthState) (cfg : RequestConfig) (fs? : Option Nat)
    (h1 : cfg.retry = false)
    (h2 : env.outcome 0 = RawOutcome.err (some 401))
    (h3 : isTruthy st.refreshToken = true)
    (h4 : env.refresh = RefreshOutcome.failure fs?) :
    runClient (fuel + 1) env (initRun st) cfg =
      some (CallResult.rejected ⟨some 401, { requestInterceptor st cfg with retry := true }⟩,
            { auth := AuthState.logout
              dispatched := [(st, requestInterceptor st cfg)]
              refreshRequests := [refreshCallConfig (st.refreshToken.getD "")]
              redirects := 1
              authHistory := [st, AuthState.logout] }) := by
  have h2' : env.outcome (initRun st).dispatched.length = RawOutcome.err (some 401) := by
    simpa [initRun] using h2
  have h3' : isTruthy (initRun st).auth.refreshToken = true := by
    simpa [initRun] using h3
  rw [runClient_step_refresh_failure fuel env (initRun st) cfg fs? h2' h1 h3' h4]
  simp [initRun]

/-- Witness for C4: concrete refresh failure (itself a 401); the caller
gets the original 401 back, the store is cleared, one redirect fires. -/
theorem claim4_witness :
    demoCfg.retry = false ∧
    demoEnvFail.outcome 0 = RawOutcome.err (some 401) ∧
    isTruthy demoStore.refreshToken = true ∧
    demoEnvFail.refresh = RefreshOutcome.failure (some 401) ∧
    runClient 2 demoEnvFail (initRun demoStore) demoCfg =
      some (CallResult.rejected
              ⟨some 401, { requestInterceptor demoStore demoCfg with retry := true }⟩,
            { auth := AuthState.logout
              dispatched := [(demoStore, requestInterceptor demoStore demoCfg)]
              refreshRequests := [refreshCallConfig (demoStore.refreshToken.getD "")]
              redirects := 1
              authHistory := [demoStore, AuthState.logout] }) :=
  ⟨rfl, by decide, by decide, rfl,
   claim4_refresh_failure_clears_and_rejects_original 1 demoEnvFail demoStore demoCfg (some 401)
     rfl (by decide) (by decide) rfl⟩

/-- C5: for an originating request that receives a 401 while the store
holds no truthy refresh token: the credential pair is cleared, one
redirect to the login page occurs, the original 401 is rejected to the
caller, and the refresh endpoint is never called (the recorded refresh
calls stay empty). -/
theorem claim5_absent_refresh_token_no_refresh_call (fuel : Nat) (env : Env) (st : AuthState)
    (cfg : RequestConfig)
    (h1 : cfg.retry = false)
    (h2 : env.outcome 0 = RawOutcome.err (some 401))
    (h3 : isTruthy st.refreshToken = false) :
    runClient (fuel + 1) env (initRun st) cfg =
      some (CallResult.rejected ⟨some 401, { requestInterceptor st cfg with retry := true }⟩,
            { auth := AuthState.logout
              dispatched := [(st, requestInterceptor st cfg)]
              refreshRequests := []
              redirects := 1
              authHistory := [st, AuthState.logout] }) := by
  have h2' : env.outcome (initRun st).dispatched.length = RawOutcome.err (some 401) := by
    simpa [initRun] using h2
  have h3' : isTruthy (initRun st).auth.refreshToken = false := by
    simpa [initRun] using h3
  rw [runClient_step_no_refresh_token fuel env (initRun st) cfg h2' h1 h3']
  simp [initRun]

/-- Witness for C5: store with no refresh token; the refresh endpoint
(which would have succeeded) is never consulted. -/
theorem claim5_witness :
    demoCfg.retry = false ∧
    demoEnv401.outcome 0 = RawOutcome.err (some 401) ∧
    isTruthy demoStoreNoRefresh.refreshToken = false ∧
    runClient 2 demoEnv401 (initRun demoStoreNoRefresh) demoCfg =
      some (CallResult.rejected
              ⟨some 401, { requestInterceptor demoStoreNoRefresh demoCfg with retry := true }⟩,
            { auth := AuthState.logout
              dispatched := [(demoStoreNoRefresh, requestInterceptor demoStoreNoRefresh demoCfg)]
              refreshRequests := []
              redirects := 1
              authHistory := [demoStoreNoRefresh, AuthState.logout] }) :=
  ⟨rfl, by decide, by decide,
   claim5_absent_refresh_token_no_refresh_call 1 demoEnv401 demoStoreNoRefresh demoCfg
     rfl (by decide) (by decide)⟩

/-- C6: the client is a pass-through outside the 401-recovery case: a
delivered response is resolved to the caller unchanged, and any error
whose status is not a fresh 401 — another HTTP status or a transport
error with no status — is rejected unchanged, with no refresh call, no
retry, and no state change beyond recording the single dispatch. -/
theorem claim6_passthrough_outside_401 (fuel : Nat) (env : Env) (rs : RunState)
    (cfg : RequestConfig) :
    (∀ resp, env.outcome rs.dispatched.length = RawOutcome.ok resp →
       runClient (fuel + 1) env rs cfg =
         some (CallResult.resolved resp,
               { rs with dispatched := rs.dispatched ++ [(rs.auth, requestInterceptor rs.auth cfg)] })) ∧
    (∀ s? : Option Nat, env.outcome rs.dispatched.length = RawOutcome.err s? → s? ≠ some 401 →
       runClient (fuel + 1) env rs cfg =
         some (CallResult.rejected ⟨s?, requestInterceptor rs.auth cfg⟩,
               { rs with dispatched := rs.dispatched ++ [(rs.auth, requestInterceptor rs.auth cfg)] })) := by
  constructor
  · intro resp h
    exact runClient_step_ok fuel env rs cfg resp h
  · intro s? h hne
    refine runClient_step_reject fuel env rs cfg s? h ?_
    rintro ⟨hs, -⟩
    exact hne hs

/-- Witness for C6: a network/transport error (no HTTP response) is
rejected unchanged with no refresh and no retry. -/
theorem claim6_witness :
    demoEnvNet.outcome (initRun demoStore).dispatched.length = RawOutcome.err none ∧
    (none : Option Nat) ≠ some 401 ∧
    runClient 2 demoEnvNet (initRun demoStore) demoCfg =
      some (CallResult.rejected ⟨none, requestInterceptor (initRun demoStore).auth demoCfg⟩,
            { initRun demoStore with
              dispatched := (initRun demoStore).dispatched ++
                [((initRun demoStore).auth, requestInterceptor (initRun demoStore).auth demoCfg)] }) :=
  ⟨by decide, by decide,
   (claim6_passthrough_outside_401 1 demoEnvNet (initRun demoStore) demoCfg).2 none
     (by decide) (by decide)⟩

/-- C7: with the refresh endpoint returning the pair (a, r), every
store state reachable during an originating call (the recorded
mutation history, starting from the initial store) is either the
initial pair, the complete new pair set by the single `setTokens`, or
the cleared pair: no intermediate state pairing the new access token
with the old refresh token (or vice versa) is ever reachable. -/
theorem claim7_atomic_credential_update (fuel : Nat) (env : Env) (st : AuthState)
    (cfg : RequestConfig) (res : CallResult) (rs' : RunState) (a r : String)
    (hrefresh : env.refresh = RefreshOutcome.success a r)
    (hrun : runClient fuel env (initRun st) cfg = some (res, rs')) :
    ∀ s ∈ rs'.authHistory, s = st ∨ s = AuthState.setTokens a r ∨ s = AuthState.logout := by
  obtain ⟨-, ⟨tailH, heq, hmem⟩, -⟩ := runClient_trace fuel env (initRun st) cfg res rs' hrun
  intro s hs
  rw [heq] at hs
  rcases List.mem_append.mp hs with h | h
  · simp only [initRun, List.mem_singleton] at h
    exact Or.inl h
  · rcases hmem s h with ⟨a', r', hr', hset⟩ | hlog
    · rw [hrefresh] at hr'
      injection hr' with ha hr2
      subst ha
      subst hr2
      exact Or.inr (Or.inl hset)
    · exact Or.inr (Or.inr hlog)

/-- Witness for C7: in the concrete successful scenario the history is
exactly (old pair, new pair) — no mixed pair appears. -/
theorem claim7_witness :
    demoEnvOk.refresh = RefreshOutcome.success "tokA1" "tokR1" ∧
    runClient 2 demoEnvOk (initRun demoStore) demoCfg =
      some (CallResult.resolved ⟨200, "stocks"⟩, demoRunOkFinal) ∧
    ∀ s ∈ demoRunOkFinal.authHistory,
      s = demoStore ∨ s = AuthState.setTokens "tokA1" "tokR1" ∨ s = AuthState.logout :=
  ⟨rfl, by decide,
   claim7_atomic_credential_update 2 demoEnvOk demoStore demoCfg
     (CallResult.resolved ⟨200, "stocks"⟩) demoRunOkFinal "tokA1" "tokR1" rfl (by decide)⟩

/-- C8: in any run, at most one refresh call is recorded, and every
recorded refresh call is the bare-axios config `refreshCallConfig` —
built outside the intercepted client, carrying no `Authorization`
header and no retried marker; moreover the whole flow terminates
within fuel 2 regardless of outcomes (in particular a refresh call
failing with 401 cannot re-enter the refresh logic). -/
theorem claim8_refresh_bypass_and_no_recursion (fuel : Nat) (env : Env)
    (rs : RunState) (cfg : RequestConfig) (res : CallResult) (rs' : RunState)
    (hrun : runClient fuel env rs cfg = some (res, rs')) :
    (∃ tailR, rs'.refreshRequests = rs.refreshRequests ++ tailR ∧ tailR.length ≤ 1 ∧
       ∀ c ∈ tailR, ∃ rt, c = refreshCallConfig rt ∧
         c.headers = some ⟨none, [("Content-Type", "application/json")]⟩ ∧
         c.retry = false) ∧
    (∀ m, runClient (m + 2) env rs cfg = runClient 2 env rs cfg) := by
  obtain ⟨-, -, tailR, heq, hlen, hmem⟩ := runClient_trace fuel env rs cfg res rs' hrun
  refine ⟨⟨tailR, heq, hlen, ?_⟩, fun m => runClient_fuel_ge_two m env rs cfg⟩
  intro c hc
  obtain ⟨rt, hrt⟩ := hmem c hc
  subst hrt
  exact ⟨rt, rfl, rfl, rfl⟩

/-- Witness for C8: the refresh call fails with 401 yet exactly one
refresh request (with no Authorization header) is recorded, and the run
is fuel-independent beyond 2. -/
theorem claim8_witness :
    runClient 2 demoEnvFail (initRun demoStore) demoCfg =
      some (CallResult.rejected
              ⟨some 401, { requestInterceptor demoStore demoCfg with retry := true }⟩,
            demoRunFailFinal) ∧
    ((∃ tailR, demoRunFailFinal.refreshRequests = (initRun demoStore).refreshRequests ++ tailR ∧
        tailR.length ≤ 1 ∧
        ∀ c ∈ tailR, ∃ rt, c = refreshCallConfig rt ∧
          c.headers = some ⟨none, [("Content-Type", "application/json")]⟩ ∧
          c.retry = false) ∧
     (∀ m, runClient (m + 2) demoEnvFail (initRun demoStore) demoCfg =
        runClient 2 demoEnvFail (initRun demoStore) demoCfg)) :=
  ⟨by decide,
   claim8_refresh_bypass_and_no_recursion 2 demoEnvFail (initRun demoStore) demoCfg
     (CallResult.rejected ⟨some 401, { requestInterceptor demoStore demoCfg with retry := true }⟩)
     demoRunFailFinal (by decide)⟩

/-- C9: on every error path that does not enter the refresh flow — an
error whose status is not 401, an error with no status, or a 401 on a
request already marked retried — the credential store, the redirect
count, the refresh-call trace and the mutation history are all exactly
as before; the error is rejected with the client state unchanged. -/
theorem claim9_error_paths_leave_state_untouched (fuel : Nat) (env : Env) (rs : RunState)
    (cfg : RequestConfig) (s? : Option Nat)
    (herr : env.outcome rs.dispatched.length = RawOutcome.err s?)
    (hcase : s? ≠ some 401 ∨ cfg.retry = true) :
    ∃ rs',
      runClient (fuel + 1) env rs cfg =
        some (CallResult.rejected ⟨s?, requestInterceptor rs.auth cfg⟩, rs') ∧
      rs'.auth = rs.auth ∧
      rs'.redirects = rs.redirects ∧
      rs'.refreshRequests = rs.refreshRequests ∧
      rs'.authHistory = rs.authHistory := by
  have hcond : ¬ (s? = some 401 ∧ (requestInterceptor rs.auth cfg).retry = false) := by
    rintro ⟨hs, hf⟩
    rcases hcase with h | h
    · exact h hs
    · rw [requestInterceptor_retry, h] at hf
      exact Bool.noConfusion hf
  exact ⟨_, runClient_step_reject fuel env rs cfg s? herr hcond, rfl, rfl, rfl, rfl⟩

/-- Witness for C9: a 500 error leaves the store, redirects and traces
untouched. -/
theorem claim9_witness :
    demoEnv500.outcome (initRun demoStore).dispatched.length = RawOutcome.err (some 500) ∧
    (some 500 ≠ some 401 ∨ demoCfg.retry = true) ∧
    (∃ rs',
      runClient 2 demoEnv500 (initRun demoStore) demoCfg =
        some (CallResult.rejected
                ⟨some 500, requestInterceptor (initRun demoStore).auth demoCfg⟩, rs') ∧
      rs'.auth = (initRun demoStore).auth ∧
      rs'.redirects = (initRun demoStore).redirects ∧
      rs'.refreshRequests = (initRun demoStore).refreshRequests ∧
      rs'.authHistory = (initRun demoStore).authHistory) :=
  ⟨by decide, Or.inl (by decide),
   claim9_error_paths_leave_state_untouched 1 demoEnv500 (initRun demoStore) demoCfg (some 500)
     (by decide) (Or.inl (by decide))⟩

/-- C10: when the store holds no truthy access token (absent or the
empty string) at send time, the request interceptor returns the config
completely untouched; in particular a request whose headers carry no
Authorization entry is dispatched with none — never with a malformed
value such as `Bearer undefined` or `Bearer ` with an empty token. -/
theorem claim10_falsy_token_leaves_request_untouched (st : AuthState) (cfg : RequestConfig)
    (h : isTruthy st.accessToken = false) :
    requestInterceptor st cfg = cfg ∧
    (∀ hd, cfg.headers = some hd → hd.authorization = none →
       Option.map Headers.authorization (requestInterceptor st cfg).headers = some none) := by
  have h1 : requestInterceptor st cfg = cfg := by
    unfold requestInterceptor
    rcases ha : st.accessToken with _ | tok
    · rcases hh : cfg.headers with _ | hd <;> simp [ha, hh]
    · have htok : tok = "" := by
        by_contra hne
        simp [isTruthy, ha, hne] at h
      rcases hh : cfg.headers with _ | hd
      · simp [ha, hh]
      · simp [ha, hh, htok]
  refine ⟨h1, ?_⟩
  intro hd hhd hauth
  rw [h1, hhd]
  simp [hauth]

/-- Witness for C10: empty store, demo request with no Authorization
header — the interceptor leaves it untouched and no header is sent. -/
theorem claim10_witness :
    isTruthy demoStoreEmpty.accessToken = false ∧
    requestInterceptor demoStoreEmpty demoCfg = demoCfg ∧
    Option.map Headers.authorization (requestInterceptor demoStoreEmpty demoCfg).headers =
      some none :=
  ⟨by decide,
   (claim10_falsy_token_leaves_request_untouched demoStoreEmpty demoCfg (by decide)).1,
   (claim10_falsy_token_leaves_request_untouched demoStoreEmpty demoCfg (by decide)).2
     ⟨none, [("Content-Type", "application/json")]⟩ rfl rfl⟩
